import Mathlib

set_option maxRecDepth 8000

/-! Shallow embedding of the agent core of the `llm_apps` repository
(`src/agents/base_agent.py`, `src/agents/orchestrator.py` and the three
specialized agent modules).  Python strings are modelled as Lean `String`
(lists of characters); Python dictionaries as association lists over an
inductive value type; Python exceptions as an explicit error type threaded
through `Except`.  All definitions are executable. -/

/-! Python string primitives used by the source. -/

/-- Models Python `s.lower()` at the character level.  The repository's
keyword lists and queries are ASCII, for which `Char.toLower` agrees with
Python `str.lower`. -/
def py_lower (s : String) : String := ⟨s.data.map Char.toLower⟩

/-- Helper for substring search: does `p` occur at the head of `l`? -/
def leads_with : List Char → List Char → Bool
  | [], _ => true
  | _ :: _, [] => false
  | a :: as, b :: bs => a == b && leads_with as bs

/-- Does `needle` occur as a contiguous run inside the list?  This is the
semantics of Python's `needle in hay` on strings. -/
def sub_occurs (needle : List Char) : List Char → Bool
  | [] => leads_with needle []
  | c :: rest => leads_with needle (c :: rest) || sub_occurs needle rest

/-- Models the Python expression `needle in hay` for strings. -/
def py_contains (hay needle : String) : Bool := sub_occurs needle.data hay.data

/-- Characters removed by Python `str.strip()` with no argument
(ASCII whitespace; the embedding works at the ASCII level). -/
def is_py_space (c : Char) : Bool :=
  c == ' ' || c == '\t' || c == '\n' || c == '\r' || c == '\x0b' || c == '\x0c'

/-- Models Python `s.strip()`: remove leading and trailing whitespace. -/
def strip_chars (l : List Char) : List Char :=
  ((l.dropWhile is_py_space).reverse.dropWhile is_py_space).reverse

/-- Models Python `s.split(sep)` for a one-character separator: the result
always has one more part than there are separator occurrences, and an empty
input yields `[[]]`. -/
def split_on_char (sep : Char) : List Char → List (List Char)
  | [] => [[]]
  | c :: rest =>
    match split_on_char sep rest with
    | [] => [[]]
    | l :: ls => if c = sep then [] :: l :: ls else (c :: l) :: ls

/-- Models Python `sep.join(parts)` for a one-character separator. -/
def join_with (sep : Char) : List (List Char) → List Char
  | [] => []
  | [l] => l
  | l :: ls => l ++ sep :: join_with sep ls
/-! Intent classification, translated from `AgentOrchestrator._classify_intent`
(`src/agents/orchestrator.py`). -/

/-- Cost-related keywords (`cost_keywords` in `_classify_intent`). -/
def cost_keywords : List String :=
  ["cost", "save", "savings", "expensive", "budget", "reduce", "optimize", "financial"]

/-- Analysis keywords (`analysis_keywords` in `_classify_intent`). -/
def analysis_keywords : List String :=
  ["analyze", "performance", "quality", "score", "compare", "benchmark", "trend"]

/-- Report keywords (`report_keywords` in `_classify_intent`). -/
def report_keywords : List String :=
  ["report", "summary", "document", "generate", "download", "pdf", "presentation"]

/-- Multi-agent keywords (`complex_keywords` in `_classify_intent`). -/
def complex_keywords : List String :=
  ["comprehensive", "detailed", "full analysis", "complete", "everything"]

/-- Models `any(keyword in query_lower for keyword in kws)`. -/
def any_keyword (kws : List String) (query_lower : String) : Bool :=
  kws.any (fun k => py_contains query_lower k)

/-- The intent dictionary built by `_classify_intent`.  Its four keys are
fixed in the source, so it is modelled as a record. -/
structure Intent where
  primary_agent : String
  secondary_agents : List String
  complexity : String
  keywords_found : List String

/-- Translation of `AgentOrchestrator._classify_intent`: lower-case the
query, then test the four keyword sets in fixed precedence order
(complexity, then cost, then report, then analysis), falling back to the
default intent built at the top of the method. -/
def classify_intent (user_query : String) : Intent :=
  let query_lower := py_lower user_query
  if any_keyword complex_keywords query_lower then
    ⟨"multi_agent", ["network_analysis", "cost_optimization", "report_generation"],
      "complex", []⟩
  else if any_keyword cost_keywords query_lower then
    ⟨"cost_optimization", [], "simple",
      cost_keywords.filter (fun k => py_contains query_lower k)⟩
  else if any_keyword report_keywords query_lower then
    ⟨"report_generation", [], "simple",
      report_keywords.filter (fun k => py_contains query_lower k)⟩
  else if any_keyword analysis_keywords query_lower then
    ⟨"network_analysis", [], "simple",
      analysis_keywords.filter (fun k => py_contains query_lower k)⟩
  else
    ⟨"network_analysis", [], "simple", []⟩

/-! LLM Gateway, translated from `BaseAgent` in `src/agents/base_agent.py`. -/

/-- Role markers whose lines are discarded (the `skip_phrase` list in
`BaseAgent._clean_llm_response`). -/
def skip_phrases : List String :=
  ["human:", "assistant:", "user:", "system:", "response:"]

/-- Models `any(skip_phrase in line.lower() for skip_phrase in [...])`. -/
def line_has_skip_phrase (line : List Char) : Bool :=
  skip_phrases.any (fun p => sub_occurs p.data (line.map Char.toLower))

/-- Translation of `BaseAgent._clean_llm_response`: split on newlines, drop
lines containing a role marker (case-insensitively), rejoin, strip, and
truncate to 2000 characters with an ellipsis marker. -/
def clean_llm_response (response : String) : String :=
  let lines := split_on_char '\n' response.data
  let cleaned_lines := lines.filter (fun line => ! line_has_skip_phrase line)
  let cleaned_response := strip_chars (join_with '\n' cleaned_lines)
  if cleaned_response.length > 2000 then ⟨cleaned_response.take 2000 ++ "...".data⟩
  else ⟨cleaned_response⟩

/-- Outcome of the one transport attempt made by `BaseAgent.call_llm`
(the `requests.post` call, status check and response-field extraction):
either a generated text, or one of the exception classes distinguished by
the `except` clauses of `call_llm`. -/
inductive LlmOutcome where
  | ok (generated_text : String)
  | timeout
  | requestException (msg : String)
  | otherException (msg : String)

/-- Translation of `BaseAgent.call_llm`: every transport outcome is mapped
to a string, so the function is total — the embedding of "never propagates
an exception to its caller".  A timeout yields the fixed timeout sentinel,
any other transport failure a sentinel embedding the error text, any other
failure a generic sentinel, and a successful response is cleaned. -/
def call_llm (outcome : LlmOutcome) : String :=
  match outcome with
  | .ok generated_text => clean_llm_response generated_text
  | .timeout => "Request timed out. Please try again."
  | .requestException m => "Sorry, I encountered an error: " ++ m
  | .otherException _ => "An unexpected error occurred. Please try again."

/-! Python values, dictionaries and exceptions.  A Python dict is an
association list; `dict.get` takes the first binding (keys are unique in
every dict the source builds). -/

inductive PyVal where
  | str (s : String)
  | bool (b : Bool)
  | int (n : Int)
  | none
  | list (elems : List PyVal)
  | dict (entries : List (String × PyVal))

/-- Models Python `d.get(key, default)` (used only on dict values in the
embedded code paths; on a non-dict the default is returned). -/
def PyVal.get (v : PyVal) (k : String) (default : PyVal) : PyVal :=
  match v with
  | .dict entries =>
    match entries.find? (fun kv => kv.1 == k) with
    | Option.some kv => kv.2
    | Option.none => default
  | _ => default

/-- Models the Python comparison `v == "literal"` for a string literal. -/
def PyVal.eq_str (v : PyVal) (t : String) : Bool :=
  match v with
  | .str s => s == t
  | _ => false

/-- Models Python `key in d` for a dict. -/
def PyVal.has_key (v : PyVal) (k : String) : Bool :=
  match v with
  | .dict entries => entries.any (fun kv => kv.1 == k)
  | _ => false

/-- Models Python truthiness (`if v:`). -/
def py_truthy (v : PyVal) : Bool :=
  match v with
  | .none => false
  | .bool b => b
  | .int n => n != 0
  | .str s => !s.isEmpty
  | .list xs => !xs.isEmpty
  | .dict entries => !entries.isEmpty

/-- Models `str(v)` / f-string interpolation.  Container reprs are
abbreviated (no embedded claim inspects the repr of a list or dict). -/
def py_str (v : PyVal) : String :=
  match v with
  | .str s => s
  | .bool b => if b then "True" else "False"
  | .int n => toString n
  | .none => "None"
  | .list _ => "[...]"
  | .dict _ => "\x7b...\x7d"

/-- Models the f-string format spec `:.1f` on the values these templates
receive (integer defaults; true floating-point data stays outside the
embedded fragment). -/
def py_format_1f (v : PyVal) : String :=
  match v with
  | .int n => toString n ++ ".0"
  | v => py_str v

/-- Models the f-string format spec `:,.0f`; thousands separators are not
reproduced (no claim inspects these characters). -/
def py_format_comma0 (v : PyVal) : String :=
  match v with
  | .int n => toString n
  | v => py_str v

/-- Models Python `sep.join(xs)` on a list value. -/
def py_join (sep : String) (v : PyVal) : String :=
  match v with
  | .list xs => String.intercalate sep (xs.map py_str)
  | v => py_str v

/-- Models Python list slicing `xs[:n]`. -/
def py_take (n : Nat) (v : PyVal) : PyVal :=
  match v with
  | .list xs => .list (xs.take n)
  | v => v

/-- The Python exceptions raised inside the embedded code paths. -/
inductive PyError where
  | nameError (msg : String)
  | attributeError (msg : String)

/-- Models `str(exception)`. -/
def PyError.str : PyError → String
  | .nameError m => m
  | .attributeError m => m

/-- The per-module import state that decides whether the global name
`datetime` resolves.  `base_agent.py` imports `datetime`;
`orchestrator.py`, `network_analyzer_agent.py`, `cost_optimzer_agent.py`
and `report_generator_agent.py` do not, although each of them evaluates
`datetime.now()`. -/
structure PyModule where
  has_datetime_import : Bool

/-- Import state of `src/agents/orchestrator.py` (imports `typing`, `json`
and the agent classes only). -/
def orchestrator_module : PyModule := ⟨false⟩

/-- Import state of `src/agents/network_analyzer_agent.py` (imports
`typing`, `pandas` and `BaseAgent` only). -/
def network_analyzer_module : PyModule := ⟨false⟩

/-- Import state of `src/agents/cost_optimzer_agent.py` (imports `typing`
and `BaseAgent` only). -/
def cost_optimizer_module : PyModule := ⟨false⟩

/-- Import state of `src/agents/report_generator_agent.py` (imports
`typing` and `BaseAgent` only). -/
def report_generator_module : PyModule := ⟨false⟩

/-- Models evaluating `datetime.now().isoformat()` inside module `m`: when
the module imports `datetime` the current clock string is produced,
otherwise the name lookup raises `NameError`. -/
def datetime_now_isoformat (m : PyModule) (now : String) : Except PyError String :=
  if m.has_datetime_import then Except.ok now
  else Except.error (.nameError "name \x27datetime\x27 is not defined")

/-! NetworkAnalyzerAgent, translated from
`src/agents/network_analyzer_agent.py`.  The triple-quoted prompt templates
are reproduced with `\n` line breaks; the decorative indentation whitespace
of the Python source is not copied character-for-character (no claim
inspects prompt text). -/

namespace NetworkAnalyzerAgent

/-- Translation of `NetworkAnalyzerAgent.get_system_prompt`. -/
def get_system_prompt : String :=
  "You are a Network Analysis Expert specializing in healthcare provider networks.\n"
    ++ "Your role is to analyze provider performance, identify trends, and provide insights.\n\n"
    ++ "Key responsibilities:\n"
    ++ "- Analyze provider quality scores and efficiency metrics\n"
    ++ "- Identify top and bottom performers\n"
    ++ "- Calculate network averages and benchmarks\n"
    ++ "- Provide specific, data-driven insights\n\n"
    ++ "Always provide:\n"
    ++ "1. Clear performance summaries\n"
    ++ "2. Specific metrics and comparisons\n"
    ++ "3. Actionable insights\n"
    ++ "4. Risk assessments where applicable\n\n"
    ++ "Keep responses concise, data-focused, and professional."

/-- Translation of `_format_provider_context`. -/
def format_provider_context (data provider_id : PyVal) : String :=
  if py_truthy provider_id && data.has_key "providers" then
    match data.get "providers" (.list []) with
    | .list ps =>
      match ps.find? (fun p => py_str (p.get "id" .none) == py_str provider_id) with
      | Option.some p =>
        if py_truthy p then
          "Provider Details:\n"
            ++ "- Name: " ++ py_str (p.get "name" .none) ++ "\n"
            ++ "- Organization: " ++ py_str (p.get "organization" .none) ++ "\n"
            ++ "- Score: " ++ py_str (p.get "score" .none) ++ "/100\n"
            ++ "- Efficiency Gain: " ++ py_str (p.get "efficiency_gain" .none) ++ "%\n"
            ++ "- Quality Rating: " ++ py_str (p.get "quality_rating" .none) ++ "/5\n"
            ++ "- Average Cost: $" ++ py_str (p.get "avg_cost" .none) ++ "\n"
            ++ "- Patient Volume: " ++ py_str (p.get "patient_volume" .none) ++ "\n"
            ++ "- Clinical Groups: " ++ py_str (p.get "clinical_groups" .none) ++ "\n"
            ++ "- Network Status: "
            ++ (if py_truthy (p.get "in_network" .none) then "In Network" else "Out of Network")
            ++ "\n\nNetwork Averages:\n"
            ++ "- Average Score: "
            ++ py_str ((data.get "network_averages" (.dict [])).get "avg_score" (.str "N/A")) ++ "\n"
            ++ "- Average Cost: $"
            ++ py_str ((data.get "network_averages" (.dict [])).get "avg_cost" (.str "N/A")) ++ "\n"
            ++ "- Average Quality: "
            ++ py_str ((data.get "network_averages" (.dict [])).get "avg_quality" (.str "N/A"))
        else "Provider data not available for analysis."
      | Option.none => "Provider data not available for analysis."
    | _ => "Provider data not available for analysis."
  else "Provider data not available for analysis."

/-- Translation of `_format_network_context`. -/
def format_network_context (data : PyVal) : String :=
  "Network Overview:\n"
    ++ "- Total Providers: " ++ py_str (data.get "total_providers" (.int 0)) ++ "\n"
    ++ "- In-Network Providers: " ++ py_str (data.get "in_network_count" (.int 0)) ++ "\n"
    ++ "- Average Network Score: " ++ py_format_1f (data.get "avg_score" (.int 0)) ++ "\n"
    ++ "- Average Cost: $" ++ py_format_comma0 (data.get "avg_cost" (.int 0)) ++ "\n"
    ++ "- Average Quality Rating: " ++ py_format_1f (data.get "avg_quality" (.int 0)) ++ "\n\n"
    ++ "Performance Distribution:\n"
    ++ "- Top Performers (Score >90): " ++ py_str (data.get "top_performers_count" (.int 0)) ++ "\n"
    ++ "- Low Performers (Score <80): " ++ py_str (data.get "low_performers_count" (.int 0)) ++ "\n\n"
    ++ "Geographic Coverage:\n"
    ++ "- States Covered: " ++ py_join ", " (data.get "states_covered" (.list [])) ++ "\n"
    ++ "- Total CBSAs: " ++ py_str (data.get "total_cbsas" (.int 0)) ++ "\n\n"
    ++ "Clinical Specialties:\n"
    ++ "- Primary Specialties: " ++ py_join ", " (py_take 5 (data.get "top_specialties" (.list [])))

/-- Translation of `_analyze_provider_performance`: build the prompt, call
the gateway, then build the success dict — whose `timestamp` entry
evaluates `datetime.now()` in a module that never imported `datetime`. -/
def analyze_provider_performance (m : PyModule) (llm : String → Nat → String)
    (now : String) (data provider_id : PyVal) : Except PyError PyVal := do
  let context := format_provider_context data provider_id
  let prompt := get_system_prompt ++ "\n\nProvider Performance Analysis Request:\n" ++ context
    ++ "\n\nPlease provide a comprehensive performance analysis including:\n"
    ++ "1. Performance summary (scores, efficiency, quality)\n"
    ++ "2. Comparison to network averages\n"
    ++ "3. Strengths and areas for improvement\n"
    ++ "4. Specific recommendations\n"
    ++ "5. Risk assessment\n\n"
    ++ "Format as a structured analysis with clear sections."
  let analysis := llm prompt 1000
  let ts ← datetime_now_isoformat m now
  return .dict [("success", .bool true), ("analysis_type", .str "provider_performance"),
    ("provider_id", provider_id), ("analysis", .str analysis), ("timestamp", .str ts)]

/-- Translation of `_analyze_network_summary`. -/
def analyze_network_summary (m : PyModule) (llm : String → Nat → String)
    (now : String) (data : PyVal) : Except PyError PyVal := do
  let context := format_network_context data
  let prompt := get_system_prompt ++ "\n\nNetwork Summary Analysis:\n" ++ context
    ++ "\n\nProvide a comprehensive network performance summary:\n"
    ++ "1. Overall network health assessment\n"
    ++ "2. Key performance indicators\n"
    ++ "3. Top performers and concerning providers\n"
    ++ "4. Geographic coverage analysis\n"
    ++ "5. Priority improvement areas\n\n"
    ++ "Focus on actionable insights for network management."
  let analysis := llm prompt 1000
  let ts ← datetime_now_isoformat m now
  return .dict [("success", .bool true), ("analysis_type", .str "network_summary"),
    ("analysis", .str analysis), ("timestamp", .str ts)]

/-- Body of the `try` block of `NetworkAnalyzerAgent.process_request`: the
dispatch on `analysis_type`.  The branches for `quality_trends`,
`cost_analysis` and the default call methods that are not defined anywhere
in the class, which in Python raises `AttributeError` at call time. -/
def dispatch_request (m : PyModule) (llm : String → Nat → String) (now : String)
    (request : PyVal) : Except PyError PyVal :=
  let analysis_type := request.get "analysis_type" (.str "general")
  let provider_data := request.get "provider_data" (.dict [])
  let specific_provider := request.get "provider_id" .none
  if analysis_type.eq_str "provider_performance" then
    analyze_provider_performance m llm now provider_data specific_provider
  else if analysis_type.eq_str "network_summary" then
    analyze_network_summary m llm now provider_data
  else if analysis_type.eq_str "quality_trends" then
    Except.error (.attributeError
      "\x27NetworkAnalyzerAgent\x27 object has no attribute \x27_analyze_quality_trends\x27")
  else if analysis_type.eq_str "cost_analysis" then
    Except.error (.attributeError
      "\x27NetworkAnalyzerAgent\x27 object has no attribute \x27_analyze_cost_performance\x27")
  else
    Except.error (.attributeError
      "\x27NetworkAnalyzerAgent\x27 object has no attribute \x27_general_network_analysis\x27")

/-- Translation of `NetworkAnalyzerAgent.process_request`: run the dispatch
inside `try`, converting any exception into the failure dict. -/
def process_request (m : PyModule) (llm : String → Nat → String) (now : String)
    (request : PyVal) : PyVal :=
  match dispatch_request m llm now request with
  | Except.ok r => r
  | Except.error e =>
    .dict [("success", .bool false), ("error", .str e.str),
      ("message", .str "Failed to complete network analysis")]

end NetworkAnalyzerAgent

/-! CostOptimizerAgent, translated from `src/agents/cost_optimzer_agent.py`. -/

namespace CostOptimizerAgent

/-- Translation of `CostOptimizerAgent.get_system_prompt`. -/
def get_system_prompt : String :=
  "You are a Healthcare Cost Optimization Expert with deep expertise in:\n"
    ++ "- Provider cost analysis and benchmarking\n"
    ++ "- Contract negotiation strategies\n"
    ++ "- Network optimization for cost savings\n"
    ++ "- ROI analysis and financial modeling\n"
    ++ "- Value-based care principles\n\n"
    ++ "Your goal is to identify cost savings opportunities while maintaining or improving quality.\n\n"
    ++ "Always provide:\n"
    ++ "1. Specific cost savings amounts and percentages\n"
    ++ "2. Risk assessment for each recommendation\n"
    ++ "3. Implementation timelines\n"
    ++ "4. Impact on quality and access\n"
    ++ "5. Actionable next steps\n\n"
    ++ "Be precise with financial calculations and realistic about achievable savings."

/-- One line of the high-cost provider listing in `_format_cost_context`. -/
def high_cost_line (p : PyVal) : String :=
  "\n- " ++ py_str (p.get "name" .none) ++ ": $" ++ py_str (p.get "avg_cost" .none)
    ++ " (Score: " ++ py_str (p.get "score" .none)
    ++ ", Volume: " ++ py_str (p.get "patient_volume" .none) ++ ")\n"

/-- One line of the low-performer listing in `_format_cost_context`. -/
def low_performer_line (p : PyVal) : String :=
  "\n- " ++ py_str (p.get "name" .none) ++ ": Score " ++ py_str (p.get "score" .none)
    ++ " (Cost: $" ++ py_str (p.get "avg_cost" .none)
    ++ ", Quality: " ++ py_str (p.get "quality_rating" .none) ++ ")\n"

/-- Translation of `_format_cost_context`. -/
def format_cost_context (data target savings_type constraints : PyVal) : String :=
  let network_stats := data.get "network_stats" (.dict [])
  let base :=
    "Cost Optimization Parameters:\n"
      ++ "- Target Savings: " ++ py_str target
      ++ (if savings_type.eq_str "percentage" then "%" else " dollars") ++ "\n"
      ++ "- Current Network Average Cost: $"
      ++ py_format_comma0 (network_stats.get "avg_cost" (.int 0)) ++ "\n"
      ++ "- Total Network Volume: "
      ++ py_str (network_stats.get "total_volume" (.int 0)) ++ " episodes\n\n"
      ++ "High-Cost Providers:\n"
  let base := base ++ String.join ((match py_take 5 (data.get "high_cost_providers" (.list [])) with
    | .list ps => ps
    | _ => []).map high_cost_line)
  let base := base ++ "\n\nLow-Performing Providers:\n"
  let base := base ++ String.join ((match py_take 5 (data.get "low_performers" (.list [])) with
    | .list ps => ps
    | _ => []).map low_performer_line)
  if py_truthy constraints then
    base ++ "\n\nConstraints:\n"
      ++ "- Geographic: " ++ py_str (constraints.get "geographic" (.str "None specified")) ++ "\n"
      ++ "- Quality Requirements: "
      ++ py_str (constraints.get "quality_requirements" (.str "Maintain current levels")) ++ "\n"
      ++ "- Timeline: " ++ py_str (constraints.get "timeline" (.str "No specific timeline"))
  else base

/-- Translation of `_generate_cost_reduction_strategies`: prompt, gateway
call with a 1500-token budget, then the success dict whose `timestamp`
entry evaluates `datetime.now()` in a module without the import. -/
def generate_cost_reduction_strategies (m : PyModule) (llm : String → Nat → String)
    (now : String) (data target savings_type constraints : PyVal) :
    Except PyError PyVal := do
  let context := format_cost_context data target savings_type constraints
  let prompt := get_system_prompt ++ "\n\nCost Reduction Strategy Request:\n" ++ context
    ++ "\n\nGenerate 3-4 specific cost reduction strategies that achieve the target savings:\n\n"
    ++ "For each strategy, provide:\n"
    ++ "1. Strategy name and description\n"
    ++ "2. Specific providers/actions involved\n"
    ++ "3. Projected savings ($ amount and %)\n"
    ++ "4. Risk level (Low/Medium/High)\n"
    ++ "5. Implementation timeline\n"
    ++ "6. Quality impact assessment\n"
    ++ "7. Step-by-step implementation plan\n\n"
    ++ "Ensure strategies are realistic and consider the constraints provided.\n"
    ++ "Prioritize strategies by potential savings and feasibility."
  let strategies := llm prompt 1500
  let ts ← datetime_now_isoformat m now
  return .dict [("success", .bool true), ("optimization_type", .str "cost_reduction"),
    ("target_savings", target), ("savings_type", savings_type),
    ("strategies", .str strategies), ("timestamp", .str ts)]

/-- Body of the `try` block of `CostOptimizerAgent.process_request`.  The
branches for `contract_analysis`, `provider_replacement`,
`network_efficiency` and the default call methods that are not defined
anywhere in the class, which in Python raises `AttributeError`. -/
def dispatch_request (m : PyModule) (llm : String → Nat → String) (now : String)
    (request : PyVal) : Except PyError PyVal :=
  let optimization_type := request.get "optimization_type" (.str "general")
  let target_savings := request.get "target_savings" .none
  let savings_type := request.get "savings_type" (.str "percentage")
  let provider_data := request.get "provider_data" (.dict [])
  let constraints := request.get "constraints" (.dict [])
  if optimization_type.eq_str "cost_reduction" then
    generate_cost_reduction_strategies m llm now provider_data target_savings
      savings_type constraints
  else if optimization_type.eq_str "contract_analysis" then
    Except.error (.attributeError
      "\x27CostOptimizerAgent\x27 object has no attribute \x27_analyze_contract_opportunities\x27")
  else if optimization_type.eq_str "provider_replacement" then
    Except.error (.attributeError
      "\x27CostOptimizerAgent\x27 object has no attribute \x27_analyze_provider_replacement_options\x27")
  else if optimization_type.eq_str "network_efficiency" then
    Except.error (.attributeError
      "\x27CostOptimizerAgent\x27 object has no attribute \x27_analyze_network_efficiency\x27")
  else
    Except.error (.attributeError
      "\x27CostOptimizerAgent\x27 object has no attribute \x27_general_cost_analysis\x27")

/-- Translation of `CostOptimizerAgent.process_request`. -/
def process_request (m : PyModule) (llm : String → Nat → String) (now : String)
    (request : PyVal) : PyVal :=
  match dispatch_request m llm now request with
  | Except.ok r => r
  | Except.error e =>
    .dict [("success", .bool false), ("error", .str e.str),
      ("message", .str "Failed to complete cost optimization analysis")]

end CostOptimizerAgent

/-! ReportGeneratorAgent, translated from
`src/agents/report_generator_agent.py`. -/

namespace ReportGeneratorAgent

/-- Translation of `ReportGeneratorAgent.get_system_prompt`. -/
def get_system_prompt : String :=
  "You are a Healthcare Network Reporting Specialist with expertise in creating:\n"
    ++ "- Executive summaries and board presentations\n"
    ++ "- Detailed provider performance reports\n"
    ++ "- Regulatory compliance documentation\n"
    ++ "- Strategic analysis reports\n"
    ++ "- Network optimization recommendations\n\n"
    ++ "Your reports should be:\n"
    ++ "1. Clear and accessible to non-technical audiences\n"
    ++ "2. Well-structured with logical flow\n"
    ++ "3. Data-driven with specific metrics\n"
    ++ "4. Action-oriented with clear recommendations\n"
    ++ "5. Professional and suitable for executive review\n\n"
    ++ "Use simple language while maintaining professional tone.\n"
    ++ "Include executive summaries, key findings, and actionable recommendations."

/-- Translation of `_format_executive_context`. -/
def format_executive_context (data : PyVal) : String :=
  "Network Overview:\n"
    ++ "- Total Providers: " ++ py_str (data.get "total_providers" (.int 0)) ++ "\n"
    ++ "- In-Network: " ++ py_str (data.get "in_network_count" (.int 0))
    ++ " (" ++ py_format_1f (data.get "network_percentage" (.int 0)) ++ "%)\n"
    ++ "- Average Quality Score: " ++ py_format_1f (data.get "avg_score" (.int 0)) ++ "/100\n"
    ++ "- Average Cost: $" ++ py_format_comma0 (data.get "avg_cost" (.int 0)) ++ "\n\n"
    ++ "Performance Highlights:\n"
    ++ "- Top Performers: " ++ py_str (data.get "top_performers_count" (.int 0))
    ++ " providers scoring >90\n"
    ++ "- Improvement Needed: " ++ py_str (data.get "low_performers_count" (.int 0))
    ++ " providers scoring <80\n"
    ++ "- Cost Savings Opportunities: "
    ++ py_str (data.get "cost_savings_potential" (.str "TBD")) ++ "\n\n"
    ++ "Geographic Coverage:\n"
    ++ "- States: " ++ (match data.get "states_covered" (.list []) with
      | .list xs => toString xs.length
      | v => py_str v) ++ "\n"
    ++ "- Markets (CBSAs): " ++ py_str (data.get "total_cbsas" (.int 0)) ++ "\n"
    ++ "- Coverage Gaps: " ++ py_str (data.get "coverage_gaps_count" (.int 0))

/-- One line of the top-performer listing in
`_format_provider_diagnostics_context`. -/
def top_performer_line (p : PyVal) : String :=
  "- " ++ py_str (p.get "name" .none) ++ ": Score " ++ py_str (p.get "score" .none)
    ++ ", Cost $" ++ py_str (p.get "avg_cost" .none) ++ "\n"

/-- One line of the underperformer listing in
`_format_provider_diagnostics_context`. -/
def bottom_performer_line (p : PyVal) : String :=
  "- " ++ py_str (p.get "name" .none) ++ ": Score " ++ py_str (p.get "score" .none)
    ++ ", Quality " ++ py_str (p.get "quality_rating" .none) ++ "\n"

/-- One line of the high-cost listing in
`_format_provider_diagnostics_context`. -/
def high_cost_line (p : PyVal) : String :=
  "- " ++ py_str (p.get "name" .none) ++ ": Cost $" ++ py_str (p.get "avg_cost" .none)
    ++ ", Score " ++ py_str (p.get "score" .none) ++ "\n"

/-- Translation of `_format_provider_diagnostics_context`. -/
def format_provider_diagnostics_context (data : PyVal) : String :=
  let listing (key : String) (line : PyVal → String) : String :=
    String.join ((match py_take 3 (data.get key (.list [])) with
      | .list ps => ps
      | _ => []).map line)
  "Comprehensive Network Data:\n\n"
    ++ "Network Statistics:\n"
    ++ "- Total Providers: " ++ py_str (data.get "total_providers" (.int 0)) ++ "\n"
    ++ "- Average Score: " ++ py_format_1f (data.get "avg_score" (.int 0)) ++ "/100\n"
    ++ "- Average Cost: $" ++ py_format_comma0 (data.get "avg_cost" (.int 0)) ++ "\n"
    ++ "- Average Quality: " ++ py_format_1f (data.get "avg_quality" (.int 0)) ++ "/5\n\n"
    ++ "Top Performers:\n" ++ listing "top_performers" top_performer_line
    ++ "\nUnderperforming Providers:\n" ++ listing "bottom_performers" bottom_performer_line
    ++ "\nHigh-Cost Providers:\n" ++ listing "high_cost_providers" high_cost_line
    ++ "\n\nGeographic Distribution:\n"
    ++ "- States: " ++ py_join ", " (data.get "states_covered" (.list [])) ++ "\n"
    ++ "- Coverage Gaps: " ++ py_str (data.get "coverage_gaps_count" (.int 0)) ++ " areas\n\n"
    ++ "Clinical Specialties:\n"
    ++ "- Primary Specialties: " ++ py_join ", " (py_take 5 (data.get "top_specialties" (.list [])))

/-- Translation of `_generate_executive_summary`: prompt, gateway call with
a 1200-token budget, then the success dict whose `timestamp` entry
evaluates `datetime.now()` in a module without the import. -/
def generate_executive_summary (m : PyModule) (llm : String → Nat → String)
    (now : String) (data audience : PyVal) : Except PyError PyVal := do
  let context := format_executive_context data
  let prompt := get_system_prompt ++ "\n\nGenerate an Executive Summary for "
    ++ py_str audience ++ " with the following network data:\n" ++ context
    ++ "\n\nStructure the report as follows:\n\n"
    ++ "# EXECUTIVE SUMMARY - Provider Network Performance\n\n"
    ++ "## Key Highlights\n- [3-4 most important findings]\n\n"
    ++ "## Network Performance Overview\n- [Overall health assessment]\n- [Key metrics summary]\n\n"
    ++ "## Strategic Priorities\n- [Top 3 priority actions]\n\n"
    ++ "## Financial Impact\n- [Cost savings opportunities]\n- [ROI projections]\n\n"
    ++ "## Risk Assessment\n- [Key risks and mitigation strategies]\n\n"
    ++ "## Recommendations\n- [Specific, actionable next steps]\n\n"
    ++ "Keep each section concise (2-3 sentences) and focus on business impact.\n"
    ++ "Use clear, non-technical language suitable for executives."
  let report := llm prompt 1200
  let ts ← datetime_now_isoformat m now
  return .dict [("success", .bool true), ("report_type", .str "executive_summary"),
    ("audience", audience), ("report_content", .str report), ("timestamp", .str ts)]

/-- Translation of `_generate_provider_diagnostics_report` (gateway call
with an 1800-token budget). -/
def generate_provider_diagnostics_report (m : PyModule) (llm : String → Nat → String)
    (now : String) (data : PyVal) : Except PyError PyVal := do
  let context := format_provider_diagnostics_context data
  let prompt := get_system_prompt ++ "\n\nGenerate a comprehensive Provider Diagnostics Report:\n"
    ++ context
    ++ "\n\nCreate a detailed report with these sections:\n\n"
    ++ "# PROVIDER NETWORK DIAGNOSTICS REPORT\n\n"
    ++ "## Executive Summary\n- [Brief overview of network health]\n\n"
    ++ "## Network Performance Analysis\n- [Overall performance metrics and trends]\n\n"
    ++ "## Provider Performance Breakdown\n- [Top performers analysis]\n"
    ++ "- [Underperforming providers analysis]\n- [Performance distribution insights]\n\n"
    ++ "## Quality vs Cost Analysis\n- [Quality-cost positioning analysis]\n"
    ++ "- [Value-based performance insights]\n\n"
    ++ "## Geographic Coverage Assessment\n- [Coverage strengths and gaps]\n"
    ++ "- [Market opportunity analysis]\n\n"
    ++ "## Clinical Specialty Analysis\n- [Specialty-specific performance]\n"
    ++ "- [Capacity and utilization insights]\n\n"
    ++ "## Risk Assessment\n- [Provider-specific risks]\n- [Network stability concerns]\n\n"
    ++ "## Strategic Recommendations\n- [Specific improvement actions]\n"
    ++ "- [Provider management strategies]\n- [Network optimization opportunities]\n\n"
    ++ "Use data-driven insights and provide specific, actionable recommendations.\n"
    ++ "Include relevant metrics and comparisons throughout."
  let report := llm prompt 1800
  let ts ← datetime_now_isoformat m now
  return .dict [("success", .bool true), ("report_type", .str "provider_diagnostics"),
    ("report_content", .str report), ("timestamp", .str ts)]

/-- Body of the `try` block of `ReportGeneratorAgent.process_request`.  The
branches for `cost_optimization`, `quality_analysis`, `network_adequacy`
and the default call methods that are not defined anywhere in the class,
which in Python raises `AttributeError`. -/
def dispatch_request (m : PyModule) (llm : String → Nat → String) (now : String)
    (request : PyVal) : Except PyError PyVal :=
  let report_type := request.get "report_type" (.str "network_summary")
  let audience := request.get "audience" (.str "network_manager")
  let data := request.get "data" (.dict [])
  if report_type.eq_str "executive_summary" then
    generate_executive_summary m llm now data audience
  else if report_type.eq_str "provider_diagnostics" then
    generate_provider_diagnostics_report m llm now data
  else if report_type.eq_str "cost_optimization" then
    Except.error (.attributeError
      "\x27ReportGeneratorAgent\x27 object has no attribute \x27_generate_cost_optimization_report\x27")
  else if report_type.eq_str "quality_analysis" then
    Except.error (.attributeError
      "\x27ReportGeneratorAgent\x27 object has no attribute \x27_generate_quality_analysis_report\x27")
  else if report_type.eq_str "network_adequacy" then
    Except.error (.attributeError
      "\x27ReportGeneratorAgent\x27 object has no attribute \x27_generate_network_adequacy_report\x27")
  else
    Except.error (.attributeError
      "\x27ReportGeneratorAgent\x27 object has no attribute \x27_generate_comprehensive_report\x27")

/-- Translation of `ReportGeneratorAgent.process_request`. -/
def process_request (m : PyModule) (llm : String → Nat → String) (now : String)
    (request : PyVal) : PyVal :=
  match dispatch_request m llm now request with
  | Except.ok r => r
  | Except.error e =>
    .dict [("success", .bool false), ("error", .str e.str),
      ("message", .str "Failed to generate report")]

end ReportGeneratorAgent

/-! AgentOrchestrator, translated from `src/agents/orchestrator.py`. -/

namespace AgentOrchestrator

/-- The intent dict as passed inside agent requests (Python stores the
intent dictionary under the `"intent"` key of the request). -/
def intent_to_pyval (i : Intent) : PyVal :=
  .dict [("primary_agent", .str i.primary_agent),
    ("secondary_agents", .list (i.secondary_agents.map PyVal.str)),
    ("complexity", .str i.complexity),
    ("keywords_found", .list (i.keywords_found.map PyVal.str))]

/-- Translation of `_build_agent_request`: the base request plus the
agent-specific option key derived from secondary cues in the query. -/
def build_agent_request (user_query : String) (context : PyVal) (intent : Intent) :
    PyVal :=
  let base := [("user_query", PyVal.str user_query), ("provider_data", context),
    ("intent", intent_to_pyval intent)]
  if intent.primary_agent == "cost_optimization" then
    .dict (base ++ [("optimization_type", .str
      (if py_contains (py_lower user_query) "save"
          || py_contains (py_lower user_query) "reduce"
        then "cost_reduction" else "general"))])
  else if intent.primary_agent == "network_analysis" then
    .dict (base ++ [("analysis_type", .str
      (if py_contains (py_lower user_query) "dr."
          || py_contains (py_lower user_query) "provider"
          || py_contains (py_lower user_query) "doctor"
        then "provider_performance" else "network_summary"))])
  else if intent.primary_agent == "report_generation" then
    .dict (base ++ [("report_type", .str
      (if py_contains (py_lower user_query) "executive"
          || py_contains (py_lower user_query) "summary"
        then "executive_summary" else "provider_diagnostics"))])
  else
    .dict base

/-- Translation of `_integrate_agent_responses`: one further gateway call
whose prompt embeds the three values read back from the collected agent
responses with `.get(..., 'Not available')` defaults. -/
def integrate_agent_responses (llm : String → Nat → String) (user_query : String)
    (agent_responses : PyVal) : String :=
  let integration_prompt :=
    "User asked: \"" ++ user_query ++ "\"\n\n"
      ++ "Agent Responses:\n\n"
      ++ "Network Analysis:\n"
      ++ py_str ((agent_responses.get "network_analysis" (.dict [])).get "analysis"
          (.str "Not available")) ++ "\n\n"
      ++ "Cost Optimization:\n"
      ++ py_str ((agent_responses.get "cost_optimization" (.dict [])).get "strategies"
          (.str "Not available")) ++ "\n\n"
      ++ "Report Content:\n"
      ++ py_str ((agent_responses.get "report_generation" (.dict [])).get "report_content"
          (.str "Not available")) ++ "\n\n"
      ++ "Please integrate these agent responses into a single, coherent response that:\n"
      ++ "1. Directly answers the user\x27s question\n"
      ++ "2. Combines insights from all agents\n"
      ++ "3. Provides a logical flow of information\n"
      ++ "4. Includes specific recommendations\n"
      ++ "5. Uses clear, professional language\n\n"
      ++ "Format as a well-structured response with clear sections."
  llm integration_prompt 1500

/-- Translation of `_handle_multi_agent_request`.  The very first statement
of the method builds the `results` dict, whose `timestamp` entry evaluates
`datetime.now().isoformat()` — and `orchestrator.py` never imports
`datetime`, so in the source this raises before any agent is invoked.  The
remaining statements are translated in source order after that bind. -/
def handle_multi_agent_request (llm : String → Nat → String) (now : String)
    (user_query : String) (context : PyVal) (intent : Intent) :
    Except PyError PyVal := do
  let ts ← datetime_now_isoformat orchestrator_module now
  let responses : List (String × PyVal) := []
  let responses :=
    if intent.secondary_agents.contains "network_analysis" then
      responses ++ [("network_analysis",
        NetworkAnalyzerAgent.process_request network_analyzer_module llm now
          (.dict [("analysis_type", .str "network_summary"),
            ("provider_data", context)]))]
    else responses
  let responses :=
    if intent.secondary_agents.contains "cost_optimization" then
      responses ++ [("cost_optimization",
        CostOptimizerAgent.process_request cost_optimizer_module llm now
          (.dict [("optimization_type", .str "general"),
            ("provider_data", context)]))]
    else responses
  let responses :=
    if intent.secondary_agents.contains "report_generation" then
      responses ++ [("report_generation",
        ReportGeneratorAgent.process_request report_generator_module llm now
          (.dict [("report_type", .str "comprehensive"), ("data", context),
            ("focus_areas", .list [.str "performance", .str "costs",
              .str "optimization"])]))]
    else responses
  let integrated := integrate_agent_responses llm user_query (.dict responses)
  return .dict [("success", .bool true), ("multi_agent_response", .bool true),
    ("user_query", .str user_query), ("agent_responses", .dict responses),
    ("integrated_response", .str integrated), ("timestamp", .str ts)]

/-- Translation of `_handle_general_query`. -/
def handle_general_query (llm : String → Nat → String) (now : String)
    (user_query : String) (context : PyVal) : PyVal :=
  NetworkAnalyzerAgent.process_request network_analyzer_module llm now
    (.dict [("analysis_type", .str "general"), ("user_query", .str user_query),
      ("provider_data", context)])

/-- Translation of `route_request`: classify, then dispatch through the
`agent_routes` table (modelled as the if-chain over the three keys it
contains), falling back to `_handle_general_query` when the lookup misses. -/
def route_request (llm : String → Nat → String) (now : String)
    (user_query : String) (context : PyVal) : Except PyError PyVal :=
  let intent := classify_intent user_query
  if intent.primary_agent == "multi_agent" then
    handle_multi_agent_request llm now user_query context intent
  else if intent.primary_agent == "network_analysis" then
    Except.ok (NetworkAnalyzerAgent.process_request network_analyzer_module llm now
      (build_agent_request user_query context intent))
  else if intent.primary_agent == "cost_optimization" then
    Except.ok (CostOptimizerAgent.process_request cost_optimizer_module llm now
      (build_agent_request user_query context intent))
  else if intent.primary_agent == "report_generation" then
    Except.ok (ReportGeneratorAgent.process_request report_generator_module llm now
      (build_agent_request user_query context intent))
  else
    Except.ok (handle_general_query llm now user_query context)

/-- The orchestrator's only instance state relevant to the claims: the
conversation log created as `self.conversation_history = []` in
`__init__`. -/
structure OrchestratorState where
  conversation_history : List PyVal

/-- `route_request` as a method on the orchestrator state: the body of
`route_request` in the source never references `self.conversation_history`
(it calls no logging method), so the state passes through unchanged. -/
def route_request_method (st : OrchestratorState) (llm : String → Nat → String)
    (now : String) (user_query : String) (context : PyVal) :
    Except PyError PyVal × OrchestratorState :=
  (route_request llm now user_query context, st)

/-- Translation of `add_to_conversation`: build the entry dict — whose
`timestamp` entry evaluates `datetime.now().isoformat()` in a module
without the `datetime` import — append it, then keep the last 50 entries. -/
def add_to_conversation (now : String) (history : List PyVal)
    (user_query : String) (response : PyVal) : Except PyError (List PyVal) := do
  let ts ← datetime_now_isoformat orchestrator_module now
  let entry : PyVal := .dict [("timestamp", .str ts),
    ("user_query", .str user_query),
    ("response_summary", .dict [("success", response.get "success" (.bool false)),
      ("primary_agent", response.get "primary_agent" (.str "unknown")),
      ("key_insights", response.get "key_insights" (.list []))])]
  let appended := history ++ [entry]
  return (if appended.length > 50 then appended.drop (appended.length - 50)
    else appended)

end AgentOrchestrator

/-! Supporting lemmas. -/
theorem char_toNat_ofNat_valid {n : Nat} (h : n.isValidChar) :
    (Char.ofNat n).toNat = n := by
  rw [Char.ofNat, dif_pos h]
  rfl

theorem char_toLower_idem (c : Char) : c.toLower.toLower = c.toLower := by
  unfold Char.toLower
  by_cases h : c.toNat ≥ 65 ∧ c.toNat ≤ 90
  · rw [if_pos h]
    have hv : Nat.isValidChar (c.toNat + 32) := Or.inl (by omega)
    have ht : (Char.ofNat (c.toNat + 32)).toNat = c.toNat + 32 :=
      char_toNat_ofNat_valid hv
    rw [if_neg (by rw [ht]; omega)]
  · rw [if_neg h, if_neg h]

theorem py_lower_idem (s : String) : py_lower (py_lower s) = py_lower s := by
  unfold py_lower
  cases s with
  | mk data =>
    simp only [List.map_map]
    congr 1
    exact List.map_congr_left (fun c _ => char_toLower_idem c)

theorem split_on_char_ne_nil (sep : Char) (l : List Char) :
    split_on_char sep l ≠ [] := by
  cases l with
  | nil => simp [split_on_char]
  | cons c rest =>
    simp only [split_on_char]
    cases h : split_on_char sep rest with
    | nil => simp
    | cons a as =>
      by_cases hc : c = sep <;> simp [hc]

theorem join_with_split_on_char (sep : Char) (l : List Char) :
    join_with sep (split_on_char sep l) = l := by
  induction l with
  | nil => rfl
  | cons c rest ih =>
    cases h : split_on_char sep rest with
    | nil => exact absurd h (split_on_char_ne_nil sep rest)
    | cons a as =>
      rw [h] at ih
      simp only [split_on_char, h]
      by_cases hc : c = sep
      · subst hc
        rw [if_pos rfl]
        cases as with
        | nil =>
          simp only [join_with, List.nil_append] at ih ⊢
          rw [ih]
        | cons b bs =>
          simp only [join_with, List.nil_append] at ih ⊢
          rw [ih]
      · rw [if_neg hc]
        cases as with
        | nil =>
          simp only [join_with] at ih ⊢
          rw [ih]
        | cons b bs =>
          simp only [join_with, List.cons_append] at ih ⊢
          rw [ih]

theorem split_on_char_cons_sep (sep : Char) (l : List Char) :
    split_on_char sep (sep :: l) = [] :: split_on_char sep l := by
  cases h : split_on_char sep l with
  | nil => exact absurd h (split_on_char_ne_nil sep l)
  | cons a as => simp [split_on_char, h]
theorem split_on_char_of_not_mem (sep : Char) (l : List Char) (h : sep ∉ l) :
    split_on_char sep l = [l] := by
  induction l with
  | nil => rfl
  | cons c rest ih =>
    have hc : ¬ c = sep := fun hx => h (hx ▸ List.mem_cons_self c rest)
    have hrest : sep ∉ rest := fun hx => h (List.mem_cons_of_mem c hx)
    simp [split_on_char, ih hrest, hc]

theorem leads_with_replicate (p : List Char) (n : Nat) (c : Char)
    (h : leads_with p (List.replicate n c) = true) :
    p = List.replicate p.length c := by
  induction p generalizing n with
  | nil => rfl
  | cons x xs ih =>
    cases n with
    | zero => simp [leads_with] at h
    | succ m =>
      rw [List.replicate_succ] at h
      simp only [leads_with, Bool.and_eq_true, beq_iff_eq] at h
      obtain ⟨hx, hrest⟩ := h
      simp only [List.length_cons, List.replicate_succ]
      exact List.cons_eq_cons.mpr ⟨hx, ih m hrest⟩

theorem sub_occurs_replicate (p : List Char) (n : Nat) (c : Char)
    (h : sub_occurs p (List.replicate n c) = true) :
    p = List.replicate p.length c := by
  induction n with
  | zero =>
    simp only [List.replicate] at h
    cases p with
    | nil => rfl
    | cons x xs => simp [sub_occurs, leads_with] at h
  | succ m ih =>
    rw [List.replicate_succ] at h
    simp only [sub_occurs] at h
    rcases Bool.or_eq_true_iff.mp h with h1 | h2
    · rw [← List.replicate_succ] at h1
      exact leads_with_replicate p (m + 1) c h1
    · exact ih h2

theorem sub_occurs_replicate_eq_false (p : List Char) (n : Nat) (c : Char)
    (h : p ≠ List.replicate p.length c) :
    sub_occurs p (List.replicate n c) = false := by
  cases hs : sub_occurs p (List.replicate n c) with
  | false => rfl
  | true => exact absurd (sub_occurs_replicate p n c hs) h

theorem line_has_skip_phrase_replicate_a (n : Nat) :
    line_has_skip_phrase (List.replicate n 'a') = false := by
  have hm : (List.replicate n 'a').map Char.toLower = List.replicate n 'a' := by
    rw [List.map_replicate, show Char.toLower 'a' = 'a' from by decide]
  simp only [line_has_skip_phrase, skip_phrases, List.any_cons, List.any_nil, hm]
  rw [sub_occurs_replicate_eq_false "human:".data n 'a' (by decide),
    sub_occurs_replicate_eq_false "assistant:".data n 'a' (by decide),
    sub_occurs_replicate_eq_false "user:".data n 'a' (by decide),
    sub_occurs_replicate_eq_false "system:".data n 'a' (by decide),
    sub_occurs_replicate_eq_false "response:".data n 'a' (by decide)]
  rfl

theorem dropWhile_replicate_of_false (p : Char → Bool) (n : Nat) (c : Char)
    (h : p c = false) :
    List.dropWhile p (List.replicate n c) = List.replicate n c := by
  cases n with
  | zero => rfl
  | succ m => rw [List.replicate_succ, List.dropWhile_cons_of_neg (by simp [h])]

theorem strip_chars_replicate_a (n : Nat) :
    strip_chars (List.replicate n 'a') = List.replicate n 'a' := by
  unfold strip_chars
  rw [dropWhile_replicate_of_false is_py_space n 'a' (by decide),
    List.reverse_replicate,
    dropWhile_replicate_of_false is_py_space n 'a' (by decide),
    List.reverse_replicate]

/-! Branch lemmas for `classify_intent`, shared by several theorems below. -/

theorem classify_intent_of_complex (q : String)
    (h : any_keyword complex_keywords (py_lower q) = true) :
    classify_intent q =
      ⟨"multi_agent", ["network_analysis", "cost_optimization", "report_generation"],
        "complex", []⟩ := by
  simp [classify_intent, h]

theorem classify_intent_of_cost (q : String)
    (h1 : any_keyword complex_keywords (py_lower q) = false)
    (h2 : any_keyword cost_keywords (py_lower q) = true) :
    classify_intent q =
      ⟨"cost_optimization", [], "simple",
        cost_keywords.filter (fun k => py_contains (py_lower q) k)⟩ := by
  simp [classify_intent, h1, h2]

theorem classify_intent_of_report (q : String)
    (h1 : any_keyword complex_keywords (py_lower q) = false)
    (h2 : any_keyword cost_keywords (py_lower q) = false)
    (h3 : any_keyword report_keywords (py_lower q) = true) :
    classify_intent q =
      ⟨"report_generation", [], "simple",
        report_keywords.filter (fun k => py_contains (py_lower q) k)⟩ := by
  simp [classify_intent, h1, h2, h3]

theorem classify_intent_of_analysis (q : String)
    (h1 : any_keyword complex_keywords (py_lower q) = false)
    (h2 : any_keyword cost_keywords (py_lower q) = false)
    (h3 : any_keyword report_keywords (py_lower q) = false)
    (h4 : any_keyword analysis_keywords (py_lower q) = true) :
    classify_intent q =
      ⟨"network_analysis", [], "simple",
        analysis_keywords.filter (fun k => py_contains (py_lower q) k)⟩ := by
  simp [classify_intent, h1, h2, h3, h4]

theorem classify_intent_of_none (q : String)
    (h1 : any_keyword complex_keywords (py_lower q) = false)
    (h2 : any_keyword cost_keywords (py_lower q) = false)
    (h3 : any_keyword report_keywords (py_lower q) = false)
    (h4 : any_keyword analysis_keywords (py_lower q) = false) :
    classify_intent q = ⟨"network_analysis", [], "simple", []⟩ := by
  simp [classify_intent, h1, h2, h3, h4]

/-! Helper: a strategy of the form "pure computation, then the datetime
timestamp bind, then a success dict" can only fail with the `NameError`
raised by the `datetime` lookup. -/

theorem bind_datetime_error {α : Type} (m : PyModule) (now : String)
    (f : String → Except PyError α) (hf : ∀ s, ∃ a, f s = Except.ok a)
    (e : PyError)
    (h : datetime_now_isoformat m now >>= f = Except.error e) :
    e = PyError.nameError "name \x27datetime\x27 is not defined" := by
  unfold datetime_now_isoformat at h
  cases hm : m.has_datetime_import with
  | true =>
    rw [hm, if_pos rfl] at h
    obtain ⟨a, ha⟩ := hf now
    rw [show (Except.ok now >>= f : Except PyError α) = f now from rfl, ha] at h
    exact Except.noConfusion h
  | false =>
    rw [hm, if_neg (by simp)] at h
    rw [show ((Except.error (PyError.nameError "name \x27datetime\x27 is not defined") :
        Except PyError String) >>= f : Except PyError α)
      = Except.error (PyError.nameError "name \x27datetime\x27 is not defined") from rfl] at h
    injection h with h1
    exact h1.symm

/-! Claim theorems. -/
/-- C1: intent classification follows the fixed top-to-bottom precedence with
first match winning: a complexity keyword forces the multi intent with all
three secondary agents; otherwise a cost keyword yields the cost intent;
otherwise a report keyword yields the report intent; otherwise an analysis
keyword yields the performance intent; and a query matching no keyword yields
the default performance intent without error. -/
theorem C1_intent_precedence (q : String) :
    (any_keyword complex_keywords (py_lower q) = true →
      (classify_intent q).primary_agent = "multi_agent" ∧
      (classify_intent q).secondary_agents =
        ["network_analysis", "cost_optimization", "report_generation"]) ∧
    (any_keyword complex_keywords (py_lower q) = false →
      any_keyword cost_keywords (py_lower q) = true →
      (classify_intent q).primary_agent = "cost_optimization") ∧
    (any_keyword complex_keywords (py_lower q) = false →
      any_keyword cost_keywords (py_lower q) = false →
      any_keyword report_keywords (py_lower q) = true →
      (classify_intent q).primary_agent = "report_generation") ∧
    (any_keyword complex_keywords (py_lower q) = false →
      any_keyword cost_keywords (py_lower q) = false →
      any_keyword report_keywords (py_lower q) = false →
      any_keyword analysis_keywords (py_lower q) = true →
      (classify_intent q).primary_agent = "network_analysis") ∧
    (any_keyword complex_keywords (py_lower q) = false →
      any_keyword cost_keywords (py_lower q) = false →
      any_keyword report_keywords (py_lower q) = false →
      any_keyword analysis_keywords (py_lower q) = false →
      classify_intent q = ⟨"network_analysis", [], "simple", []⟩) := by
  refine ⟨fun h => ?_, fun h1 h2 => ?_, fun h1 h2 h3 => ?_, fun h1 h2 h3 h4 => ?_,
    fun h1 h2 h3 h4 => ?_⟩
  · rw [classify_intent_of_complex q h]
    exact ⟨rfl, rfl⟩
  · rw [classify_intent_of_cost q h1 h2]
  · rw [classify_intent_of_report q h1 h2 h3]
  · rw [classify_intent_of_analysis q h1 h2 h3 h4]
  · exact classify_intent_of_none q h1 h2 h3 h4

/-- Witness for C1: the precedence theorem applied at one concrete query per
branch, with every hypothesis discharged by evaluation. -/
theorem C1_intent_precedence_witness :
    ((classify_intent "show me everything").primary_agent = "multi_agent" ∧
      (classify_intent "show me everything").secondary_agents =
        ["network_analysis", "cost_optimization", "report_generation"]) ∧
    (classify_intent "how much does it cost").primary_agent = "cost_optimization" ∧
    (classify_intent "make a report").primary_agent = "report_generation" ∧
    (classify_intent "analyze this").primary_agent = "network_analysis" ∧
    classify_intent "hello" = ⟨"network_analysis", [], "simple", []⟩ :=
  ⟨(C1_intent_precedence "show me everything").1 (by decide),
   (C1_intent_precedence "how much does it cost").2.1 (by decide) (by decide),
   (C1_intent_precedence "make a report").2.2.1 (by decide) (by decide) (by decide),
   (C1_intent_precedence "analyze this").2.2.2.1 (by decide) (by decide) (by decide)
     (by decide),
   (C1_intent_precedence "hello").2.2.2.2 (by decide) (by decide) (by decide)
     (by decide)⟩

/-- C9 counterexample: the keyword "cost" is NOT a substring of "forecast",
so `classify("forecast the next quarter")` does not yield the cost intent;
it falls through to the default performance intent. -/
theorem C9_counterexample :
    py_contains "forecast" "cost" = false ∧
    (classify_intent "forecast the next quarter").primary_agent = "network_analysis" ∧
    ¬ (classify_intent "forecast the next quarter").primary_agent = "cost_optimization" := by
  decide

/-- C9 (amended): keyword matching is substring containment on the
lower-cased query, so every query containing a cost keyword as a substring of
any word (and no complexity keyword) is routed to the cost agent; however
"cost" is not a substring of "forecast", so `classify("forecast the next
quarter")` yields the default performance intent instead. -/
theorem C9_substring_matching (q : String)
    (h1 : any_keyword complex_keywords (py_lower q) = false)
    (h2 : any_keyword cost_keywords (py_lower q) = true) :
    (classify_intent q).primary_agent = "cost_optimization" ∧
    (classify_intent "forecast the next quarter").primary_agent = "network_analysis" := by
  rw [classify_intent_of_cost q h1 h2]
  exact ⟨rfl, by decide⟩

/-- Witness for C9: the amended theorem applied at a concrete query in which
a cost keyword occurs inside a longer word ("costly"). -/
theorem C9_substring_matching_witness :
    (classify_intent "that is too costly").primary_agent = "cost_optimization" ∧
    (classify_intent "forecast the next quarter").primary_agent = "network_analysis" :=
  C9_substring_matching "that is too costly" (by decide) (by decide)

/-- C10: intent classification is a pure function of the query string and is
case-invariant: classifying the lower-cased form of a query produces exactly
the same intent (primary agent, secondary agents, complexity and matched
keywords) as classifying the query itself. -/
theorem C10_classify_case_invariant (q : String) :
    classify_intent (py_lower q) = classify_intent q := by
  simp only [classify_intent, py_lower_idem]

/-- C2: `call_llm` maps every transport outcome to a string and never lets
an exception escape (the embedding is a total function into `String`): a
timeout yields the fixed timeout sentinel, any other transport-level failure
yields a sentinel embedding the error text, and any other unexpected failure
yields the generic sentinel. -/
theorem C2_call_llm_sentinels (m : String) :
    call_llm .timeout = "Request timed out. Please try again." ∧
    call_llm (.requestException m) = "Sorry, I encountered an error: " ++ m ∧
    call_llm (.otherException m) = "An unexpected error occurred. Please try again." :=
  ⟨rfl, rfl, rfl⟩
/-- C3: the conversation log is never appended to by a route.
`add_to_conversation` always raises `NameError` (the entry dict evaluates
`datetime.now()` but `orchestrator.py` never imports `datetime`), and the
source's `route_request` never touches `self.conversation_history` at all,
so after 60 sequential routes the log still holds its initial contents
(length 0, not 50). -/
theorem C3_conversation_log_never_grows (now : String) (history : List PyVal)
    (q : String) (resp ctx : PyVal) (llm : String → Nat → String) :
    AgentOrchestrator.add_to_conversation now history q resp
      = Except.error (.nameError "name \x27datetime\x27 is not defined") ∧
    ((List.range 60).foldl
        (fun st _ =>
          (AgentOrchestrator.route_request_method st llm now q ctx).2)
        ⟨[]⟩).conversation_history = [] := by
  constructor
  · rfl
  · have hfix : ∀ (l : List Nat) (st : AgentOrchestrator.OrchestratorState),
        l.foldl (fun st _ => st) st = st := by
      intro l
      induction l with
      | nil => intro st; rfl
      | cons a as ih => intro st; exact ih st
    show ((List.range 60).foldl (fun st _ => st)
        (⟨[]⟩ : AgentOrchestrator.OrchestratorState)).conversation_history = []
    rw [hfix]

/-- C4: `route_request` raises on the multi-agent path — classifying "show
me everything" selects the multi intent and `_handle_multi_agent_request`
evaluates `datetime.now()` in a module that never imports `datetime`, so a
`NameError` escapes the Router; a single-agent route, by contrast, returns
a structured result without raising. -/
theorem C4_route_request_multi_agent_raises :
    AgentOrchestrator.route_request (fun _ _ => "LLM") "2026-01-01T00:00:00"
        "show me everything" (.dict [])
      = Except.error (.nameError "name \x27datetime\x27 is not defined") ∧
    ∃ d, AgentOrchestrator.route_request (fun _ _ => "LLM") "2026-01-01T00:00:00"
        "analyze performance" (.dict []) = Except.ok d :=
  ⟨rfl, ⟨_, rfl⟩⟩

/-- C5: no formatting strategy ever wraps the gateway text in a
`success=true` result, because the success dict's `timestamp` entry
evaluates `datetime.now()` in agent modules that never import `datetime`;
the resulting `NameError` is caught by `process_request`, which returns the
failure dict instead.  Evaluated here for the three strategies the claim
names (performance/network_summary, cost/cost_reduction,
report/executive_summary), each with the gateway returning a fixed text. -/
theorem C5_success_wrap_broken_by_name_error :
    NetworkAnalyzerAgent.process_request network_analyzer_module
        (fun _ _ => "ANALYSIS") "T"
        (.dict [("analysis_type", .str "network_summary"), ("provider_data", .dict [])])
      = .dict [("success", .bool false),
          ("error", .str "name \x27datetime\x27 is not defined"),
          ("message", .str "Failed to complete network analysis")] ∧
    CostOptimizerAgent.process_request cost_optimizer_module
        (fun _ _ => "STRATEGIES") "T"
        (.dict [("optimization_type", .str "cost_reduction"), ("provider_data", .dict [])])
      = .dict [("success", .bool false),
          ("error", .str "name \x27datetime\x27 is not defined"),
          ("message", .str "Failed to complete cost optimization analysis")] ∧
    ReportGeneratorAgent.process_request report_generator_module
        (fun _ _ => "REPORT") "T"
        (.dict [("report_type", .str "executive_summary"), ("data", .dict [])])
      = .dict [("success", .bool false),
          ("error", .str "name \x27datetime\x27 is not defined"),
          ("message", .str "Failed to generate report")] :=
  ⟨rfl, rfl, rfl⟩

/-- C6 counterexample: a 2500-character generated text with no role-marker
lines whose first character is a newline.  Because `_clean_llm_response`
strips leading and trailing whitespace before truncating, the returned value
is NOT the first 2000 characters of the text followed by the ellipsis
marker. -/
theorem C6_counterexample :
    (⟨'\n' :: List.replicate 2499 'a'⟩ : String).length = 2500 ∧
    (∀ line ∈ split_on_char '\n' ('\n' :: List.replicate 2499 'a'),
      line_has_skip_phrase line = false) ∧
    clean_llm_response ⟨'\n' :: List.replicate 2499 'a'⟩ ≠
      ⟨('\n' :: List.replicate 2499 'a').take 2000 ++ "...".data⟩ := by
  have h1 : split_on_char '\n' (List.replicate 2499 'a') = [List.replicate 2499 'a'] :=
    split_on_char_of_not_mem _ _
      (fun hx => absurd (List.eq_of_mem_replicate hx) (by decide))
  have hsplit : split_on_char '\n' ('\n' :: List.replicate 2499 'a')
      = [[], List.replicate 2499 'a'] := by
    rw [split_on_char_cons_sep, h1]
  refine ⟨?_, ?_, ?_⟩
  · show ('\n' :: List.replicate 2499 'a').length = 2500
    simp
  · intro line hline
    rw [hsplit, List.mem_cons, List.mem_singleton] at hline
    rcases hline with h | h
    · subst h; decide
    · subst h; exact line_has_skip_phrase_replicate_a 2499
  · have hclean : clean_llm_response ⟨'\n' :: List.replicate 2499 'a'⟩
        = ⟨List.replicate 2000 'a' ++ "...".data⟩ := by
      simp only [clean_llm_response]
      rw [hsplit]
      rw [show ([[], List.replicate 2499 'a']).filter
            (fun line => ! line_has_skip_phrase line)
          = [[], List.replicate 2499 'a'] from
        List.filter_eq_self.mpr (fun a ha => by
          rw [List.mem_cons, List.mem_singleton] at ha
          rcases ha with h | h
          · subst h; decide
          · subst h
            rw [line_has_skip_phrase_replicate_a]
            rfl)]
      rw [show join_with '\n' [[], List.replicate 2499 'a']
          = '\n' :: List.replicate 2499 'a' from rfl]
      rw [show strip_chars ('\n' :: List.replicate 2499 'a')
          = List.replicate 2499 'a' from by
        unfold strip_chars
        rw [List.dropWhile_cons_of_pos (by decide),
          dropWhile_replicate_of_false is_py_space 2499 'a' (by decide),
          List.reverse_replicate,
          dropWhile_replicate_of_false is_py_space 2499 'a' (by decide),
          List.reverse_replicate]]
      rw [List.length_replicate, if_pos (by norm_num), List.take_replicate]
      norm_num
    rw [hclean]
    intro heq
    have hdata : List.replicate 2000 'a' ++ "...".data
        = ('\n' :: List.replicate 2499 'a').take 2000 ++ "...".data :=
      congrArg String.data heq
    rw [show (2000 : Nat) = 1999 + 1 from rfl, List.take_succ_cons,
      List.replicate_succ, List.cons_append, List.cons_append] at hdata
    simp only [List.cons.injEq] at hdata
    exact absurd hdata.1 (by decide)

/-- C6 (amended): the post-processing splits the raw text into lines,
discards lines containing a role marker case-insensitively, rejoins the
remaining lines, strips leading and trailing whitespace, and truncates to
2000 characters with an ellipsis marker; in particular, a 2500-character
text with no role markers that is unchanged by stripping comes back as
exactly its first 2000 characters followed by the ellipsis marker. -/
theorem C6_clean_truncation (t : String)
    (hmark : ∀ line ∈ split_on_char '\n' t.data, line_has_skip_phrase line = false)
    (hstrip : strip_chars t.data = t.data)
    (hlen : t.data.length = 2500) :
    clean_llm_response t = ⟨t.data.take 2000 ++ "...".data⟩ := by
  have hfilter : (split_on_char '\n' t.data).filter
      (fun line => ! line_has_skip_phrase line) = split_on_char '\n' t.data :=
    List.filter_eq_self.mpr (fun a ha => by simp [hmark a ha])
  simp only [clean_llm_response]
  rw [hfilter, join_with_split_on_char, hstrip, hlen, if_pos (by norm_num)]

/-- Witness for C6: the amended truncation theorem applied at the concrete
2500-character marker-free text consisting of 2500 letters. -/
theorem C6_clean_truncation_witness :
    clean_llm_response ⟨List.replicate 2500 'a'⟩ =
      ⟨(List.replicate 2500 'a').take 2000 ++ "...".data⟩ :=
  C6_clean_truncation ⟨List.replicate 2500 'a'⟩
    (by
      show ∀ line ∈ split_on_char '\n' (List.replicate 2500 'a'),
        line_has_skip_phrase line = false
      rw [split_on_char_of_not_mem '\n' _
        (fun hx => absurd (List.eq_of_mem_replicate hx) (by decide))]
      intro line hline
      rw [List.mem_singleton] at hline
      subst hline
      exact line_has_skip_phrase_replicate_a 2500)
    (strip_chars_replicate_a 2500)
    (by
      show (List.replicate 2500 'a').length = 2500
      rw [List.length_replicate])

/-- C7: any exception raised inside an agent's dispatch (the `try` body of
`process_request`, covering request-field handling and context formatting)
is caught at the `process` boundary and converted into
`{success: false, error: str(exception), message: ...}` with a non-empty
error text, and `process_request` stays total (no exception escapes).  The
non-emptiness holds because every exception these dispatches can raise —
the `datetime` `NameError` or an `AttributeError` for an undefined strategy
method — carries a non-empty message. -/
theorem C7_process_error_boundary (m : PyModule) (llm : String → Nat → String)
    (now : String) (request : PyVal) (e : PyError) :
    (NetworkAnalyzerAgent.dispatch_request m llm now request = Except.error e →
      NetworkAnalyzerAgent.process_request m llm now request
        = .dict [("success", .bool false), ("error", .str e.str),
            ("message", .str "Failed to complete network analysis")] ∧
      e.str ≠ "") ∧
    (CostOptimizerAgent.dispatch_request m llm now request = Except.error e →
      CostOptimizerAgent.process_request m llm now request
        = .dict [("success", .bool false), ("error", .str e.str),
            ("message", .str "Failed to complete cost optimization analysis")] ∧
      e.str ≠ "") := by
  constructor
  · intro h
    refine ⟨?_, ?_⟩
    · unfold NetworkAnalyzerAgent.process_request
      rw [h]
    · simp only [NetworkAnalyzerAgent.dispatch_request] at h
      repeat' split at h
      all_goals
        first
          | (injection h with h1; subst h1; decide)
          | (have he := bind_datetime_error _ _ _ (fun s => ⟨_, rfl⟩) e h
             subst he; decide)
  · intro h
    refine ⟨?_, ?_⟩
    · unfold CostOptimizerAgent.process_request
      rw [h]
    · simp only [CostOptimizerAgent.dispatch_request] at h
      repeat' split at h
      all_goals
        first
          | (injection h with h1; subst h1; decide)
          | (have he := bind_datetime_error _ _ _ (fun s => ⟨_, rfl⟩) e h
             subst he; decide)

/-- Witness for C7: the error-boundary theorem applied to concrete failing
requests of both agents (the `network_summary` and `cost_reduction`
strategies, which raise the `datetime` `NameError` while building their
success dicts). -/
theorem C7_process_error_boundary_witness :
    (NetworkAnalyzerAgent.process_request network_analyzer_module
        (fun _ _ => "A") "T" (.dict [("analysis_type", .str "network_summary")])
      = .dict [("success", .bool false),
          ("error", .str "name \x27datetime\x27 is not defined"),
          ("message", .str "Failed to complete network analysis")] ∧
      (PyError.nameError "name \x27datetime\x27 is not defined").str ≠ "") ∧
    (CostOptimizerAgent.process_request cost_optimizer_module
        (fun _ _ => "S") "T" (.dict [("optimization_type", .str "cost_reduction")])
      = .dict [("success", .bool false),
          ("error", .str "name \x27datetime\x27 is not defined"),
          ("message", .str "Failed to complete cost optimization analysis")] ∧
      (PyError.nameError "name \x27datetime\x27 is not defined").str ≠ "") :=
  ⟨(C7_process_error_boundary network_analyzer_module (fun _ _ => "A") "T"
      (.dict [("analysis_type", .str "network_summary")])
      (.nameError "name \x27datetime\x27 is not defined")).1 rfl,
   (C7_process_error_boundary cost_optimizer_module (fun _ _ => "S") "T"
      (.dict [("optimization_type", .str "cost_reduction")])
      (.nameError "name \x27datetime\x27 is not defined")).2 rfl⟩

/-- C8: the multi-agent path never reaches its integrating gateway call:
`_handle_multi_agent_request` raises `NameError` while building its
`results` dict (evaluating `datetime.now()` in `orchestrator.py`, which
never imports `datetime`) before any of the three agents is invoked.
Evaluated at a concrete multi-agent query. -/
theorem C8_multi_agent_path_raises :
    AgentOrchestrator.handle_multi_agent_request (fun _ _ => "LLM")
        "2026-01-01T00:00:00" "give me a comprehensive view" (.dict [])
        (classify_intent "give me a comprehensive view")
      = Except.error (.nameError "name \x27datetime\x27 is not defined") := rfl
